import Mathlib

/-!
Verification of the command-line sync driver (`src/cmd/cmd.cpp`).

The development shallowly embeds the driver's policies as executable Lean
functions and proves the specified properties about them:

* credential resolution (`resolveCredentials`, cmd.cpp lines 315-359),
* proxy configuration (`configureProxy`, lines 401-425),
* exclude-list sourcing (`excludeListFatal`, lines 428-461),
* selective-sync reconciliation (`selectiveSyncFixup`, lines 250-269),
* the parsing of the selective-sync list file (`selectiveSyncListOf`,
  lines 439-454),
* option parsing and the post-parse URL normalization (`parseOptions`,
  lines 177-245, and `mainSetup`, lines 296-312),
* the bounded restart loop, as an event trace (`mainRun`, lines 385-489).

External collaborators (netrc parser, csync exclude loading, account dav
path, filesystem) are modelled as explicit parameters or from the spec,
as noted at each definition.
-/

/- ## Executable models of the Qt string primitives the driver uses -/

/-- `QString::split(sep)` on the character list of a string, keeping
empty parts (Qt's default): splitting the empty string yields `[[]]`. -/
def splitOnChar (sep : Char) : List Char → List (List Char)
  | [] => [[]]
  | c :: rest =>
    match splitOnChar sep rest with
    | [] => [[c]]
    | g :: gs => if c == sep then [] :: g :: gs else (c :: g) :: gs

/-- `QString::split(sep)` producing strings. -/
def qSplit (sep : Char) (s : String) : List String :=
  (splitOnChar sep s.data).map String.mk

/-- `QString::startsWith(pre)`. -/
def qStartsWith (s pre : String) : Bool :=
  pre.data.isPrefixOf s.data

/-- `QString::endsWith(suf)`. -/
def qEndsWith (s suf : String) : Bool :=
  suf.data.isSuffixOf s.data

/-- `QString::remove(0, n)` / dropping the first `n` characters. -/
def qDrop (s : String) (n : Nat) : String :=
  String.mk (s.data.drop n)

/-- Digit-string accumulation for `QString::toInt`: `none` on the empty
string or on any non-digit character. -/
def charsToNat : List Char → Option Nat
  | [] => none
  | l =>
    l.foldl
      (fun acc c =>
        match acc with
        | none => none
        | some n => if c.isDigit then some (n * 10 + (c.toNat - 48)) else none)
      (some 0)

/-- `QString::toInt`: optional sign followed by decimal digits; any
parse failure yields 0 (the `ok` flag at cmd.cpp line 413 is never read
afterwards). -/
def qtToInt (s : String) : Int :=
  match s.data with
  | '-' :: rest => -(Int.ofNat ((charsToNat rest).getD 0))
  | '+' :: rest => Int.ofNat ((charsToNat rest).getD 0)
  | l => Int.ofNat ((charsToNat l).getD 0)

/- ## Credential resolution (cmd.cpp lines 315-359) -/

/-- Modelled from the spec: the netrc collaborator, §6 `find(host) ->
(user, password)` over a parsed netrc represented as a finite association
list from machine/host to a (login, password) pair.  The spec leaves the
not-found result unspecified; it is modelled as the empty pair, which is
the default-constructed value of the hash the implementation reads
(`QHash::value` on a missing key). -/
def netrcFind (netrc : List (String × String × String)) (host : String) :
    String × String :=
  match netrc.find? (fun e => e.1 == host) with
  | some e => e.2
  | none => ("", "")

/-- Credential resolution, cmd.cpp lines 315-359.  Stage 1: credentials
embedded in the URL.  Stage 2: `--user` / `--password` options, each
overriding only when non-empty.  Stage 3 (lines 332-339): if `-n` was
given and the netrc file parses, both fields are assigned from
`parser.find(url.host())`.  Stage 4 (lines 341-351): in interactive mode,
prompt for whichever field is still empty.  The prompt answers are inputs
here (`promptUser`, `promptPassword`). -/
def resolveCredentials (urlUser urlPassword optUser optPassword : String)
    (useNetrc netrcParseOk : Bool)
    (netrc : List (String × String × String)) (host : String)
    (interactive : Bool) (promptUser promptPassword : String) :
    String × String :=
  let user := urlUser
  let password := urlPassword
  let user := if optUser ≠ "" then optUser else user
  let password := if optPassword ≠ "" then optPassword else password
  let up :=
    if useNetrc && netrcParseOk then netrcFind netrc host
    else (user, password)
  let user := if interactive && up.1 == "" then promptUser else up.1
  let password := if interactive && up.2 == "" then promptPassword else up.2
  (user, password)

/- ## Proxy configuration (cmd.cpp lines 401-425) -/

/-- Outcome of the proxy-configuration block.  `applicationProxy` models
`QNetworkProxy::setApplicationProxy` (line 416), `useSystemConfiguration`
models `QNetworkProxyFactory::setUseSystemConfiguration` (line 415,
initially true), `ambientConfigured` records whether
`clientProxy.setupQtProxyFromConfig()` (line 419) was invoked. -/
structure ProxyConfig where
  applicationProxy : Option (String × Int)
  useSystemConfiguration : Bool
  ambientConfigured : Bool
deriving DecidableEq

/-- Proxy configuration, cmd.cpp lines 401-425.  `none` models a null
`options.proxy` (no `--httpproxy` given).  A given string is split on
`:`; only a three-segment split installs an explicit proxy (host is the
middle segment with a leading `//` stripped), disabling system
configuration.  Any other segment count does nothing.  Only the null
case calls the ambient configuration collaborator. -/
def configureProxy (proxy : Option String) : ProxyConfig :=
  match proxy with
  | some p =>
    let pList := qSplit ':' p
    if pList.length = 3 then
      let host0 := pList[1]!
      let host := if qStartsWith host0 "//" then qDrop host0 2 else host0
      let port := qtToInt pList[2]!
      { applicationProxy := some (host, port)
        useSystemConfiguration := false
        ambientConfigured := false }
    else
      { applicationProxy := none
        useSystemConfiguration := true
        ambientConfigured := false }
  | none =>
    { applicationProxy := none
      useSystemConfiguration := true
      ambientConfigured := true }

/- ## Exclude-list sourcing (cmd.cpp lines 428-461) -/

/-- Exclude-list loading outcome, cmd.cpp lines 428-437.  The status
returned by `csync_add_exclude_list` for each path is supplied by the
environment `loadStatus`.  Modelled from the spec: the loader collaborator
(§6 `addExcludeList(context, path) -> bool`); the status convention — 0
for a successful load, nonzero for a failure — is fixed by the spec's
policy (§4.3, "both fail to load" is fatal) read against the caller's
test `loadedSystemExcludeList != 0 && loadedUserExcludeList != 0`.
Both variables are initialized to `false`, i.e. 0 (lines 429 and 434),
and assigned only when the corresponding path is non-empty. -/
def excludeListLoad (loadStatus : String → Int)
    (systemExcludeListFn exclude : String) : Int × Int :=
  let loadedSystemExcludeList : Int :=
    if systemExcludeListFn ≠ "" then loadStatus systemExcludeListFn else 0
  let loadedUserExcludeList : Int :=
    if exclude ≠ "" then loadStatus exclude else 0
  (loadedSystemExcludeList, loadedUserExcludeList)

/-- The fatal-exit test at cmd.cpp line 457: `qFatal` fires exactly when
both recorded statuses are nonzero. -/
def excludeListFatal (loadStatus : String → Int)
    (systemExcludeListFn exclude : String) : Bool :=
  let r := excludeListLoad loadStatus systemExcludeListFn exclude
  (r.1 != 0) && (r.2 != 0)

/- ## Selective-sync reconciliation (cmd.cpp lines 250-269) -/

/-- State of the sync journal as observed by `selectiveSyncFixup`:
whether the journal exists on disk (`journal->exists()`, line 252),
whether its database opens read-write (line 257), the persisted
selective-sync blacklist (lines 261 and 268) and the set of paths marked
`avoidReadFromDbOnNextSync` (line 265). -/
structure Journal where
  journalExists : Bool
  dbOpenOk : Bool
  blackList : List String
  avoided : Finset String
deriving DecidableEq

/-- `selectiveSyncFixup`, cmd.cpp lines 250-269.  Returns the updated
journal together with the set of paths invalidated
(`avoidReadFromDbOnNextSync`) during this call.  If the journal does not
exist, or its database cannot be opened, the call returns with no effect.
Otherwise the changes are the symmetric difference of the old blacklist
(as a set) and the new list (as a set); each changed path is invalidated
and the new list is persisted as the blacklist. -/
def selectiveSyncFixup (journal : Journal) (newList : List String) :
    Journal × Finset String :=
  if !journal.journalExists then (journal, ∅)
  else if !journal.dbOpenOk then (journal, ∅)
  else
    let oldBlackListSet := journal.blackList.toFinset
    let blackListSet := newList.toFinset
    let changes :=
      (oldBlackListSet \ blackListSet) ∪ (blackListSet \ oldBlackListSet)
    ({ journal with
        avoided := journal.avoided ∪ changes
        blackList := newList },
      changes)

/- ## Selective-sync list file parsing (cmd.cpp lines 439-454) -/

/-- The first filter at line 446, `.filter(QRegExp("\\S+"))`:
`QStringList::filter` keeps a line when the pattern matches somewhere in
it, i.e. when the line has at least one non-whitespace character. -/
def qtFilterNonWhitespace (l : String) : Bool :=
  l.data.any (fun c => !c.isWhitespace)

/-- The second filter at line 446, `.filter(QRegExp("^[^#]"))`: the
anchored pattern matches exactly when the line has a first character and
it is not `#`. -/
def qtFilterNotComment (l : String) : Bool :=
  match l.data with
  | [] => false
  | c :: _ => c != '#'

/-- The normalization loop at lines 448-452: append a trailing `/` to a
line that does not already end with one. -/
def ensureTrailingSlash (l : String) : String :=
  if qEndsWith l "/" then l else l ++ "/"

/-- Building the selective-sync list from the file's contents, cmd.cpp
lines 446-452: split on newlines, apply the two regular-expression
filters, then normalize each surviving line with a trailing slash. -/
def selectiveSyncListOf (content : String) : List String :=
  ((((qSplit '\n' content).filter qtFilterNonWhitespace).filter
      qtFilterNotComment).map ensureTrailingSlash)

/-- A line that is empty or consists only of whitespace (the lines the
claim says are discarded first). -/
def lineIsBlank (l : String) : Bool :=
  l.data.all (fun c => c.isWhitespace)

/-- A line whose first character is `#` (the comment lines the claim says
are discarded). -/
def lineBeginsWithHash (l : String) : Bool :=
  match l.data with
  | [] => false
  | c :: _ => c == '#'

/-- The claim's description of the parse, stated in its own words:
discard every empty or whitespace-only line and every line beginning
with `#`, then append a trailing `/` where missing. -/
def selectiveSyncListSpec (content : String) : List String :=
  ((qSplit '\n' content).filter
      (fun l => !lineIsBlank l && !lineBeginsWithHash l)).map
    ensureTrailingSlash

/- ## Option parsing (cmd.cpp lines 177-245) -/

/-- The run options structure, cmd.cpp lines 47-64.  `proxy` is an
`Option` because the code distinguishes a null `QString` (no
`--httpproxy` given, tested with `isNull()` at line 401) from a set
value. -/
structure CmdOptions where
  source_dir : String
  target_url : String
  config_directory : String
  user : String
  password : String
  proxy : Option String
  silent : Bool
  trustSSL : Bool
  useNetrc : Bool
  interactive : Bool
  ignoreHiddenFiles : Bool
  nonShib : Bool
  exclude : String
  unsyncedfolders : String
  davPath : String
  restartTimes : Int
deriving DecidableEq

/-- The options as initialized in `main` before parsing, cmd.cpp lines
277-284 (uninitialized `QString` fields default to null/empty). -/
def initialCmdOptions : CmdOptions :=
  { source_dir := "", target_url := "", config_directory := ""
    user := "", password := "", proxy := none
    silent := false, trustSSL := false, useNetrc := false
    interactive := true, ignoreHiddenFiles := true, nonShib := false
    exclude := "", unsyncedfolders := "", davPath := ""
    restartTimes := 3 }

/-- `it.peekNext()` on the argument iterator; peeking past the end of
the list is modelled as the empty string. -/
def peekNext : List String → String
  | [] => ""
  | a :: _ => a

/-- The option loop of `parseOptions`, cmd.cpp lines 208-240.  An
unrecognized option calls `help()` which exits the process, modelled as
`none`; consuming a value past the end of the iterator is likewise
modelled as `none`. -/
def parseFlags : List String → CmdOptions → Option CmdOptions
  | [], o => some o
  | a :: rest, o =>
    if a = "--httpproxy" ∧ ¬ qStartsWith (peekNext rest) "-" then
      match rest with
      | v :: rest2 => parseFlags rest2 { o with proxy := some v }
      | [] => none
    else if a = "-s" ∨ a = "--silent" then
      parseFlags rest { o with silent := true }
    else if a = "--trust" then
      parseFlags rest { o with trustSSL := true }
    else if a = "-n" then
      parseFlags rest { o with useNetrc := true }
    else if a = "-h" then
      parseFlags rest { o with ignoreHiddenFiles := false }
    else if a = "--non-interactive" then
      parseFlags rest { o with interactive := false }
    else if (a = "-u" ∨ a = "--user") ∧ ¬ qStartsWith (peekNext rest) "-" then
      match rest with
      | v :: rest2 => parseFlags rest2 { o with user := v }
      | [] => none
    else if (a = "-p" ∨ a = "--password") ∧ ¬ qStartsWith (peekNext rest) "-" then
      match rest with
      | v :: rest2 => parseFlags rest2 { o with password := v }
      | [] => none
    else if a = "--exclude" ∧ ¬ qStartsWith (peekNext rest) "-" then
      match rest with
      | v :: rest2 => parseFlags rest2 { o with exclude := v }
      | [] => none
    else if a = "--unsyncedfolders" ∧ ¬ qStartsWith (peekNext rest) "-" then
      match rest with
      | v :: rest2 => parseFlags rest2 { o with unsyncedfolders := v }
      | [] => none
    else if a = "--nonshib" then
      parseFlags rest { o with nonShib := true }
    else if a = "--davpath" ∧ ¬ qStartsWith (peekNext rest) "-" then
      match rest with
      | v :: rest2 => parseFlags rest2 { o with davPath := v }
      | [] => none
    else if a = "--max-sync-retries" ∧ ¬ qStartsWith (peekNext rest) "-" then
      match rest with
      | v :: rest2 => parseFlags rest2 { o with restartTimes := qtToInt v }
      | [] => none
    else
      none

/-- `parseOptions`, cmd.cpp lines 177-245.  With fewer than three
arguments the function prints help or the version and exits (`none`).
Otherwise the last argument is taken as the target URL, the one before
it as the source directory (normalized with a trailing `/`); a
non-existing source directory exits with code 1 (`none`).  The remaining
arguments minus the leading program name feed the option loop, and an
empty target URL or source directory afterwards exits via `help()`
(`none`).  The filesystem is supplied as `dirExists`. -/
def parseOptions (dirExists : String → Bool) (app_args : List String)
    (options : CmdOptions) : Option CmdOptions :=
  if app_args.length < 3 then none
  else
    let target_url := app_args.getLast!
    let args1 := app_args.dropLast
    let source_dir0 := args1.getLast!
    let args2 := args1.dropLast
    let source_dir :=
      if qEndsWith source_dir0 "/" then source_dir0 else source_dir0 ++ "/"
    if !dirExists source_dir then none
    else
      match parseFlags (args2.drop 1)
          { options with target_url := target_url, source_dir := source_dir } with
      | none => none
      | some o =>
        if o.target_url = "" ∨ o.source_dir = "" then none else some o

/- ## URL normalization after parsing (cmd.cpp lines 296-312) -/

/-- `QString::contains` on character lists: whether `p` occurs as a
contiguous run inside `l`. -/
def containsSub (p : List Char) : List Char → Bool
  | [] => p.isPrefixOf []
  | c :: rest => p.isPrefixOf (c :: rest) || containsSub p rest

/-- The target-URL fixup performed in `main` after `parseOptions`
returned, cmd.cpp lines 296-312: append a trailing `/` when missing
(line 296), append the account's dav path when the URL does not contain
it (line 308), and replace a leading `http` with `owncloud` (line 311).
The account's dav path (after the `--nonshib` / `--davpath` adjustments
of lines 300-306, which mutate the account, not the options) is the
parameter `accountDavPath`. -/
def mainSetup (accountDavPath : String) (options : CmdOptions) : CmdOptions :=
  let options :=
    if qEndsWith options.target_url "/" then options
    else { options with target_url := options.target_url ++ "/" }
  let options :=
    if containsSub accountDavPath.data options.target_url.data then options
    else { options with target_url := options.target_url ++ accountDavPath }
  if qStartsWith options.target_url "http" then
    { options with target_url := "owncloud" ++ qDrop options.target_url 4 }
  else options

/- ## The restart loop as an event trace (cmd.cpp lines 315-489) -/

/-- The observable steps of `main` relevant to ordering and repetition.
Line numbers refer to cmd.cpp. -/
inductive Event where
  /-- credential resolution, lines 315-359 (before the `restart_sync` label) -/
  | credentialResolution
  /-- `csync_create`, line 390 -/
  | csyncCreate
  /-- proxy configuration, lines 401-425 -/
  | proxySetup
  /-- exclude-list loading, lines 428-437 -/
  | excludeLoad
  /-- reading the `--unsyncedfolders` file, lines 440-454 -/
  | readSelectiveFile
  /-- construction of the `SyncJournalDb`, line 464 -/
  | openJournal
  /-- `selectiveSyncFixup`, line 466 -/
  | reconcile
  /-- one engine pass, lines 469-476 -/
  | enginePass
  /-- `csync_destroy`, line 478 -/
  | csyncDestroy
  /-- the warning at line 486 when the restart budget is exhausted -/
  | warnRestartsExceeded
deriving DecidableEq

/-- The events of one execution of the loop body, from the
`restart_sync` label (line 386) to `csync_destroy` (line 478), in source
order.  `hasUnsyncedFile` is whether `options.unsyncedfolders` is
non-empty (line 440); `selNonEmpty` is whether the resulting
`selectiveSyncList` is non-empty (line 465). -/
def passTrace (hasUnsyncedFile selNonEmpty : Bool) : List Event :=
  [Event.csyncCreate, Event.proxySetup, Event.excludeLoad] ++
  (if hasUnsyncedFile then [Event.readSelectiveFile] else []) ++
  [Event.openJournal] ++
  (if selNonEmpty then [Event.reconcile] else []) ++
  [Event.enginePass, Event.csyncDestroy]

/-- The retry loop, cmd.cpp lines 386-487.  `needAnother k` is the value
of `engine.isAnotherSyncNeeded()` after pass number `k` (counting from
0, equal to the `restartCount` current during that pass).  `fuel` is the
remaining restart budget `restartTimes - restartCount`, so `fuel = 0`
models `restartCount >= restartTimes`: the loop logs the warning of line
486 and falls through instead of jumping back. -/
def syncLoop (hasUnsyncedFile selNonEmpty : Bool) (needAnother : Nat → Bool) :
    Nat → Nat → List Event
  | restartCount, fuel =>
    passTrace hasUnsyncedFile selNonEmpty ++
    (if needAnother restartCount then
      match fuel with
      | 0 => [Event.warnRestartsExceeded]
      | fuel2 + 1 =>
        syncLoop hasUnsyncedFile selNonEmpty needAnother (restartCount + 1) fuel2
    else [])

/-- One whole run of `main` from credential resolution on: the event
trace, and the exit code, which is 0 on every path that reaches the loop
(line 489). -/
def mainRun (restartTimes : Nat) (hasUnsyncedFile selNonEmpty : Bool)
    (needAnother : Nat → Bool) : List Event × Int :=
  (Event.credentialResolution ::
      syncLoop hasUnsyncedFile selNonEmpty needAnother 0 restartTimes,
    0)

/-- The default restart budget, cmd.cpp line 284. -/
def defaultRestartTimes : Nat := 3

/- ## Helper lemmas -/

theorem any_not_isWhitespace (s : List Char) :
    (s.any (fun c => !c.isWhitespace)) = !(s.all (fun c => c.isWhitespace)) := by
  induction s with
  | nil => rfl
  | cons c cs ih => simp [List.any_cons, List.all_cons, ih, Bool.not_and]

theorem selectiveSyncKeep_eq (l : String) :
    (qtFilterNotComment l && qtFilterNonWhitespace l) =
      (!lineIsBlank l && !lineBeginsWithHash l) := by
  obtain ⟨s⟩ := l
  cases s with
  | nil =>
    simp [qtFilterNonWhitespace, qtFilterNotComment, lineIsBlank,
      lineBeginsWithHash]
  | cons c cs =>
    simp only [qtFilterNonWhitespace, qtFilterNotComment, lineIsBlank,
      lineBeginsWithHash, any_not_isWhitespace, bne]
    cases hc : c == '#' <;> cases hw : (c :: cs).all (fun c => c.isWhitespace) <;>
      simp [hc, hw]

theorem passTrace_count_credentialResolution (hasU selNE : Bool) :
    (passTrace hasU selNE).count Event.credentialResolution = 0 := by
  cases hasU <;> cases selNE <;> decide

theorem passTrace_count_openJournal (hasU selNE : Bool) :
    (passTrace hasU selNE).count Event.openJournal = 1 := by
  cases hasU <;> cases selNE <;> decide

theorem passTrace_count_enginePass (hasU selNE : Bool) :
    (passTrace hasU selNE).count Event.enginePass = 1 := by
  cases hasU <;> cases selNE <;> decide

theorem passTrace_count_reconcile (hasU selNE : Bool) :
    (passTrace hasU selNE).count Event.reconcile = if selNE then 1 else 0 := by
  cases hasU <;> cases selNE <;> decide

theorem syncLoop_count_credentialResolution (hasU selNE : Bool)
    (na : Nat → Bool) :
    ∀ fuel rc,
      (syncLoop hasU selNE na rc fuel).count Event.credentialResolution = 0 := by
  intro fuel
  induction fuel with
  | zero =>
    intro rc
    cases h : na rc <;>
      simp [syncLoop, h, List.count_append,
        passTrace_count_credentialResolution, List.count_cons, List.count_nil]
  | succ f ih =>
    intro rc
    cases h : na rc <;>
      simp [syncLoop, h, List.count_append,
        passTrace_count_credentialResolution, ih, List.count_cons,
        List.count_nil]

theorem syncLoop_count_openJournal (hasU selNE : Bool) (na : Nat → Bool) :
    ∀ fuel rc,
      (syncLoop hasU selNE na rc fuel).count Event.openJournal =
        (syncLoop hasU selNE na rc fuel).count Event.enginePass := by
  intro fuel
  induction fuel with
  | zero =>
    intro rc
    cases h : na rc <;>
      simp [syncLoop, h, List.count_append, passTrace_count_openJournal,
        passTrace_count_enginePass, List.count_cons, List.count_nil]
  | succ f ih =>
    intro rc
    cases h : na rc <;>
      simp [syncLoop, h, List.count_append, passTrace_count_openJournal,
        passTrace_count_enginePass, ih, List.count_cons, List.count_nil]

theorem syncLoop_count_reconcile (hasU selNE : Bool) (na : Nat → Bool) :
    ∀ fuel rc,
      (syncLoop hasU selNE na rc fuel).count Event.reconcile =
        (if selNE then
          (syncLoop hasU selNE na rc fuel).count Event.enginePass else 0) := by
  intro fuel
  induction fuel with
  | zero =>
    intro rc
    cases selNE <;> cases h : na rc <;>
      simp [syncLoop, h, List.count_append, passTrace_count_reconcile,
        passTrace_count_enginePass, List.count_cons, List.count_nil]
  | succ f ih =>
    intro rc
    cases selNE <;> cases h : na rc <;>
      simp_all [syncLoop, h, List.count_append, passTrace_count_reconcile,
        passTrace_count_enginePass, List.count_cons, List.count_nil]

/- ## Claim theorems -/

/-- C1 (counterexample): with netrc enabled and parsed but the target
host absent from the netrc file, the credentials from the prior stages
are not left untouched — the lookup's default (empty) pair overwrites
them, so the resolved credentials are not the option-stage
`("alice", "secret")`. -/
theorem netrc_miss_clears_credentials :
    resolveCredentials "" "" "alice" "secret" true true
      [("other.example.org", ("bob", "pw"))] "example.org" false "" "" =
      ("", "") ∧
    resolveCredentials "" "" "alice" "secret" true true
      [("other.example.org", ("bob", "pw"))] "example.org" false "" "" ≠
      ("alice", "secret") := by
  decide

/-- C1 (amended): with netrc enabled and the netrc file successfully
parsed, the result of the netrc lookup overwrites the URL/option-stage
user and password unconditionally and always as a whole pair — the
stored (login, password) pair when the host is found, and the default
empty pair when it is not, which clears the prior credentials rather
than leaving them. -/
theorem netrc_overwrites_as_whole_pair
    (urlUser urlPassword optUser optPassword : String)
    (netrc : List (String × String × String))
    (host promptUser promptPassword : String) :
    resolveCredentials urlUser urlPassword optUser optPassword true true
      netrc host false promptUser promptPassword = netrcFind netrc host := by
  simp [resolveCredentials]

/-- C2 (evaluation at the failing input): with only one exclude-list
source configured (the system path empty, or `--exclude` empty) and
every load attempt failing with status -1, the fatal check at cmd.cpp
line 457 does not fire — the unconfigured source's status variable
still holds its initialization 0, which reads as a success.  Only when
both sources are configured and both fail is the run fatal. -/
theorem excludeList_single_source_failure_not_fatal :
    excludeListFatal (fun _ => -1) "" "/home/user/exclude.lst" = false ∧
    excludeListFatal (fun _ => -1) "/etc/owncloud/sync-exclude.lst" "" = false ∧
    excludeListFatal (fun _ => -1) "/etc/owncloud/sync-exclude.lst"
      "/home/user/exclude.lst" = true := by
  decide

/-- C3 (counterexample): on a first run (the journal does not exist
yet) `selectiveSyncFixup` does not persist the newly supplied exclusion
set as the blacklist — the guard at cmd.cpp line 252 returns before the
persist at line 268, so the blacklist stays empty instead of becoming
`["/a/"]`. -/
theorem fixup_first_run_does_not_persist :
    (selectiveSyncFixup ⟨false, true, [], ∅⟩ ["/a/"]).1.blackList ≠ ["/a/"] := by
  decide

/-- C3 (amended): when the journal has no persisted state yet (first
run), `selectiveSyncFixup` returns immediately with no effect at all:
it issues no invalidations and does not persist the new exclusion set
either. -/
theorem fixup_first_run_noop (journal : Journal) (newList : List String)
    (h : journal.journalExists = false) :
    selectiveSyncFixup journal newList = (journal, ∅) := by
  simp [selectiveSyncFixup, h]

/-- Witness for `fixup_first_run_noop` at a concrete first-run journal. -/
theorem fixup_first_run_noop_witness :
    selectiveSyncFixup ⟨false, true, ["/b/"], ∅⟩ ["/a/"] =
      (⟨false, true, ["/b/"], ∅⟩, ∅) :=
  fixup_first_run_noop ⟨false, true, ["/b/"], ∅⟩ ["/a/"] rfl

/-- C4 (counterexample): with the default restart budget 3, an engine
that always reports "another sync needed" and a non-empty selective
sync list, the run performs four reconciliations and four journal
openings — one per engine pass — not a single one as the claim
states. -/
theorem restart_redoes_reconcile_and_journal :
    ((mainRun 3 true true (fun _ => true)).1.count Event.reconcile = 4) ∧
    ((mainRun 3 true true (fun _ => true)).1.count Event.openJournal = 4) ∧
    ¬ ((mainRun 3 true true (fun _ => true)).1.count Event.reconcile ≤ 1) ∧
    ¬ ((mainRun 3 true true (fun _ => true)).1.count Event.openJournal ≤ 1) := by
  decide

/-- C4 (amended): on every restart the whole tail of `main` after the
`restart_sync` label is re-executed, not just the low-level sync
context: the sync journal object is re-opened and, whenever the
selective-sync list is non-empty, reconciliation re-runs — once per
engine pass each.  Credential resolution alone happens before the label
and is performed exactly once per process invocation, however many
passes run. -/
theorem restart_reruns_loop_tail (restartTimes : Nat) (hasU selNE : Bool)
    (na : Nat → Bool) :
    ((mainRun restartTimes hasU selNE na).1.count
        Event.credentialResolution = 1) ∧
    ((mainRun restartTimes hasU selNE na).1.count Event.openJournal =
      (mainRun restartTimes hasU selNE na).1.count Event.enginePass) ∧
    ((mainRun restartTimes hasU selNE na).1.count Event.reconcile =
      (if selNE then
        (mainRun restartTimes hasU selNE na).1.count Event.enginePass
      else 0)) := by
  refine ⟨?_, ?_, ?_⟩ <;>
    simp [mainRun, List.count_cons, syncLoop_count_credentialResolution,
      syncLoop_count_openJournal, syncLoop_count_reconcile]

/-- C5 (counterexample): a non-empty but malformed proxy override (two
colon-delimited segments instead of three) does not fall through to the
ambient-configuration collaborator: `setupQtProxyFromConfig` is only
reached in the `else` branch of the null test at cmd.cpp line 401, so a
malformed string installs no proxy and configures nothing at all. -/
theorem proxy_malformed_skips_ambient :
    ¬ ((configureProxy (some "192.168.178.23:8080")).ambientConfigured = true) := by
  decide

/-- C5 (amended): a well-formed three-segment override installs its
host and port as the sole explicit application proxy and disables
system proxy discovery; a non-empty override with any other segment
count installs no explicit proxy, leaves system discovery untouched and
does not invoke the ambient-configuration collaborator — only an absent
(null) override delegates to ambient configuration. -/
theorem proxy_override_behavior :
    configureProxy (some "http://192.168.178.23:8080") =
      ⟨some ("192.168.178.23", 8080), false, false⟩ ∧
    (∀ s : String, (qSplit ':' s).length ≠ 3 →
      configureProxy (some s) = ⟨none, true, false⟩) ∧
    configureProxy none = ⟨none, true, true⟩ := by
  refine ⟨by decide, ?_, by decide⟩
  intro s h
  simp [configureProxy, h]

/-- Witness for `proxy_override_behavior` at a concrete malformed
override. -/
theorem proxy_override_behavior_witness :
    configureProxy (some "192.168.178.23:8080") = ⟨none, true, false⟩ :=
  proxy_override_behavior.2.1 "192.168.178.23:8080" (by decide)

/-- C6: with the default restart budget `restartTimes = 3` and an
engine that reports "another sync needed" after every pass, the driver
performs exactly 4 engine passes (the initial one plus 3 restarts),
logs the restart-exceeded warning exactly once instead of restarting
again, and exits with code 0. -/
theorem retry_bound_exhaustion :
    ((mainRun defaultRestartTimes false false (fun _ => true)).1.count
        Event.enginePass = 4) ∧
    ((mainRun defaultRestartTimes false false (fun _ => true)).1.count
        Event.warnRestartsExceeded = 1) ∧
    ((mainRun defaultRestartTimes false false (fun _ => true)).2 = 0) := by
  decide

/-- C8: reconciling an existing journal whose blacklist is
`{"/a/", "/b/"}` with the new exclusion set `{"/b/", "/c/"}`
invalidates exactly the symmetric difference `{"/a/", "/c/"}` and
persists `["/b/", "/c/"]` as the new blacklist. -/
theorem fixup_symmetric_difference :
    (selectiveSyncFixup ⟨true, true, ["/a/", "/b/"], ∅⟩ ["/b/", "/c/"]).2 =
      {"/a/", "/c/"} ∧
    (selectiveSyncFixup ⟨true, true, ["/a/", "/b/"], ∅⟩
      ["/b/", "/c/"]).1.blackList = ["/b/", "/c/"] := by
  decide

/-- C9: `selectiveSyncFixup` is idempotent — for every journal state
and every new exclusion list, a second call with the same list issues
no further invalidations (its change set is empty). -/
theorem fixup_idempotent (journal : Journal) (newList : List String) :
    (selectiveSyncFixup (selectiveSyncFixup journal newList).1 newList).2 = ∅ := by
  rcases journal with ⟨je, dbo, bl, av⟩
  cases je <;> cases dbo <;> simp [selectiveSyncFixup]

/-- C10: the selective-sync list built from the file's contents equals
the claim's description: the file's lines with every empty or
whitespace-only line and every line beginning with `#` discarded, and a
trailing `/` appended to each remaining line that does not already end
with one. -/
theorem selectiveSyncList_matches_spec (content : String) :
    selectiveSyncListOf content = selectiveSyncListSpec content := by
  unfold selectiveSyncListOf selectiveSyncListSpec
  rw [List.filter_filter]
  congr 1
  apply List.filter_congr
  intro l _
  exact selectiveSyncKeep_eq l

/-- C7 (counterexample): the target URL observed by the components that
run after setup is not the value option parsing produced: for
`owncloudcmd /tmp/src http://example.com` parsing yields target URL
`http://example.com`, but the post-parse setup of cmd.cpp lines 296-312
rewrites it to `owncloud://example.com/remote.php/webdav/`. -/
theorem target_url_mutated_after_parsing :
    ((parseOptions (fun _ => true)
        ["owncloudcmd", "/tmp/src", "http://example.com"]
        initialCmdOptions).map (fun o => o.target_url) =
      some "http://example.com") ∧
    ((parseOptions (fun _ => true)
        ["owncloudcmd", "/tmp/src", "http://example.com"]
        initialCmdOptions).map
        (fun o => (mainSetup "remote.php/webdav/" o).target_url) =
      some "owncloud://example.com/remote.php/webdav/") ∧
    ("owncloud://example.com/remote.php/webdav/" : String) ≠
      "http://example.com" := by
  decide

/-- C7 (amended): after parsing, `main`'s setup phase mutates exactly
one RunOptions field: `target_url` is normalized (trailing slash, dav
path appended when missing, leading `http` replaced by `owncloud`).
Every other field — in particular `source_dir` — keeps exactly the
value option parsing produced. -/
theorem mainSetup_touches_only_target_url (accountDavPath : String)
    (o : CmdOptions) :
    (mainSetup accountDavPath o).source_dir = o.source_dir ∧
    (mainSetup accountDavPath o).config_directory = o.config_directory ∧
    (mainSetup accountDavPath o).user = o.user ∧
    (mainSetup accountDavPath o).password = o.password ∧
    (mainSetup accountDavPath o).proxy = o.proxy ∧
    (mainSetup accountDavPath o).silent = o.silent ∧
    (mainSetup accountDavPath o).trustSSL = o.trustSSL ∧
    (mainSetup accountDavPath o).useNetrc = o.useNetrc ∧
    (mainSetup accountDavPath o).interactive = o.interactive ∧
    (mainSetup accountDavPath o).ignoreHiddenFiles = o.ignoreHiddenFiles ∧
    (mainSetup accountDavPath o).nonShib = o.nonShib ∧
    (mainSetup accountDavPath o).exclude = o.exclude ∧
    (mainSetup accountDavPath o).unsyncedfolders = o.unsyncedfolders ∧
    (mainSetup accountDavPath o).davPath = o.davPath ∧
    (mainSetup accountDavPath o).restartTimes = o.restartTimes := by
  simp only [mainSetup]
  split <;> split <;> split <;> simp
